import Mathlib

/-!
Verification development for the PELE player-rating library.

The embedding models `src/pele/metric.py` (fixed-weight variant) and the
parts of `src/pele/metric_position_weighted.py` needed by the claims.
Floating-point arithmetic is modelled over the real numbers; pandas frames
are modelled as lists of fully-populated rows (the `_safe` fillna(0.0)
cleaning is reflected by the fields being plain reals), and the column-name
level of the code (schema validation, the columns of the synthesized
aggregate frame) is modelled separately over `List String`.
-/

/-- Mirrors the frozen `PeleWeights` dataclass of `src/pele/metric.py` (lines 10-33). -/
structure PeleWeights where
  w_g : ℝ
  w_pk : ℝ
  w_a : ℝ
  w_xg : ℝ
  w_xa : ℝ
  w_kp : ℝ
  w_prog : ℝ
  w_drib : ℝ
  w_to : ℝ
  w_shot : ℝ
  w_sot : ℝ
  w_pass_pct : ℝ
  w_final_third : ℝ
  w_prog_rec : ℝ
  w_ti : ℝ
  w_blk : ℝ
  w_air : ℝ
  w_tkl_def : ℝ
  w_tkl_mid : ℝ
  w_tkl_att : ℝ

/-- The default weight values of the `PeleWeights` dataclass. -/
noncomputable def defaultWeights : PeleWeights :=
  { w_g := 1.20, w_pk := 0.30, w_a := 0.80, w_xg := 0.50, w_xa := 0.40
  , w_kp := 0.20, w_prog := 0.08, w_drib := 0.06, w_to := 0.10
  , w_shot := 0.03, w_sot := 0.05, w_pass_pct := 0.02, w_final_third := 0.04
  , w_prog_rec := 0.05, w_ti := 0.12, w_blk := 0.08, w_air := 0.05
  , w_tkl_def := 0.04, w_tkl_mid := 0.02, w_tkl_att := 0.01 }

/-- One input row of the canonical match-level table.  Numeric fields hold the
values after `_safe` (missing values already replaced by 0.0); `player_name`
is kept optional because the code treats a null name specially when resolving
group representatives. -/
@[ext]
structure Row where
  player_id : String
  player_name : Option String
  match_id : String
  season : String
  minutes : ℝ
  np_goals : ℝ
  penalty_goals : ℝ
  assists : ℝ
  xg : ℝ
  xa : ℝ
  key_passes : ℝ
  progressive_passes : ℝ
  progressive_carries : ℝ
  successful_dribbles : ℝ
  turnovers : ℝ
  tackles : ℝ
  interceptions : ℝ
  blocks : ℝ
  aerials_won : ℝ
  shots : ℝ
  shots_on_target : ℝ
  pass_completion_pct : ℝ
  passes_into_final_third : ℝ
  progressive_receives : ℝ
  tackles_def_third : ℝ
  tackles_mid_third : ℝ
  tackles_att_third : ℝ
  dribble_success_pct : ℝ

/-- Mirrors `_per90` (metric.py lines 40-42): minutes equal to 0 are replaced
by NaN before the division and the resulting NaN rate is coerced back to 0
by the `fillna(0.0)` on the rates frame, so a zero-minute row gets rate 0. -/
noncomputable def per90 (minutes value : ℝ) : ℝ :=
  if minutes = 0 then 0 else value / (minutes / 90)

/-- The 21 per-90 rate columns built in metric.py lines 131-155. -/
@[ext]
structure Rates where
  np_goals_p90 : ℝ
  penalty_goals_p90 : ℝ
  assists_p90 : ℝ
  xg_p90 : ℝ
  xa_p90 : ℝ
  key_passes_p90 : ℝ
  progressive_passes_p90 : ℝ
  progressive_carries_p90 : ℝ
  successful_dribbles_p90 : ℝ
  turnovers_p90 : ℝ
  tackles_p90 : ℝ
  interceptions_p90 : ℝ
  blocks_p90 : ℝ
  aerials_won_p90 : ℝ
  shots_p90 : ℝ
  shots_on_target_p90 : ℝ
  passes_into_final_third_p90 : ℝ
  progressive_receives_p90 : ℝ
  tackles_def_third_p90 : ℝ
  tackles_mid_third_p90 : ℝ
  tackles_att_third_p90 : ℝ

/-- The all-zero rate vector. -/
noncomputable def zeroRates : Rates :=
  ⟨0, 0, 0, 0, 0, 0, 0, 0, 0, 0, 0, 0, 0, 0, 0, 0, 0, 0, 0, 0, 0⟩

/-- Per-90 rates of one row (metric.py lines 131-155). -/
noncomputable def ratesOf (r : Row) : Rates where
  np_goals_p90 := per90 r.minutes r.np_goals
  penalty_goals_p90 := per90 r.minutes r.penalty_goals
  assists_p90 := per90 r.minutes r.assists
  xg_p90 := per90 r.minutes r.xg
  xa_p90 := per90 r.minutes r.xa
  key_passes_p90 := per90 r.minutes r.key_passes
  progressive_passes_p90 := per90 r.minutes r.progressive_passes
  progressive_carries_p90 := per90 r.minutes r.progressive_carries
  successful_dribbles_p90 := per90 r.minutes r.successful_dribbles
  turnovers_p90 := per90 r.minutes r.turnovers
  tackles_p90 := per90 r.minutes r.tackles
  interceptions_p90 := per90 r.minutes r.interceptions
  blocks_p90 := per90 r.minutes r.blocks
  aerials_won_p90 := per90 r.minutes r.aerials_won
  shots_p90 := per90 r.minutes r.shots
  shots_on_target_p90 := per90 r.minutes r.shots_on_target
  passes_into_final_third_p90 := per90 r.minutes r.passes_into_final_third
  progressive_receives_p90 := per90 r.minutes r.progressive_receives
  tackles_def_third_p90 := per90 r.minutes r.tackles_def_third
  tackles_mid_third_p90 := per90 r.minutes r.tackles_mid_third
  tackles_att_third_p90 := per90 r.minutes r.tackles_att_third

/-- Offensive component (metric.py lines 161-182).  The two percentage stats
are read directly from the row (not per-90) and divided by 100. -/
noncomputable def ocOf (w : PeleWeights) (r : Row) : ℝ :=
  let rates := ratesOf r
  w.w_g * rates.np_goals_p90
    + w.w_pk * rates.penalty_goals_p90
    + w.w_a * rates.assists_p90
    + w.w_xg * (rates.xg_p90 - rates.np_goals_p90)
    + w.w_xa * (rates.xa_p90 - rates.assists_p90)
    + w.w_kp * rates.key_passes_p90
    + w.w_prog * (rates.progressive_passes_p90 + 0.7 * rates.progressive_carries_p90)
    + w.w_drib * rates.successful_dribbles_p90
    - w.w_to * rates.turnovers_p90
    + w.w_shot * rates.shots_p90
    + w.w_sot * rates.shots_on_target_p90
    + w.w_pass_pct * (r.pass_completion_pct / 100)
    + w.w_final_third * rates.passes_into_final_third_p90
    + w.w_prog_rec * rates.progressive_receives_p90
    + w.w_drib * (r.dribble_success_pct / 100)

/-- Defensive component (metric.py lines 184-193). -/
noncomputable def dcOf (w : PeleWeights) (r : Row) : ℝ :=
  let rates := ratesOf r
  w.w_ti * (rates.tackles_p90 + rates.interceptions_p90)
    + w.w_blk * rates.blocks_p90
    + w.w_air * rates.aerials_won_p90
    + w.w_tkl_def * rates.tackles_def_third_p90
    + w.w_tkl_mid * rates.tackles_mid_third_p90
    + w.w_tkl_att * rates.tackles_att_third_p90

/-- Mirrors `_minutes_multiplier` (metric.py lines 53-63) at the fixed
power 2.0 used by `compute_pele` (line 197): the square of
`log1p(minutes) / log1p(reference)`.  This is the finite value; when
`log1p(reference) = 0` the code's division produces a non-finite float (NaN
for a zero-minute row), which this real-valued function cannot represent —
that path is tracked by `minutes_multiplier_nan` below. -/
noncomputable def minutes_multiplier (minutes reference : ℝ) : ℝ :=
  (Real.log (1 + minutes) / Real.log (1 + reference)) ^ 2

/-- Arithmetic mean of the minutes column (metric.py line 196). -/
noncomputable def avgMinutes (rows : List Row) : ℝ :=
  (rows.map (fun r => r.minutes)).sum / rows.length

/-- The minutes multiplier with numpy's non-finite results tracked:
`_minutes_multiplier` divides by `log1p(reference)`, and when that is 0 the
float result is non-finite (0/0 = NaN for a zero-minute row, otherwise
±inf), and squaring keeps it non-finite; `none` models that case.  When the
denominator is nonzero the result is the finite `minutes_multiplier`. -/
noncomputable def minutes_multiplier_nan (minutes reference : ℝ) : Option ℝ :=
  if Real.log (1 + reference) = 0 then none
  else some (minutes_multiplier minutes reference)

/-- The min_mult of row `r` in the invocation scoring `rows`
(reference = mean minutes of the population), non-finite path tracked. -/
noncomputable def min_mult_nan (rows : List Row) (r : Row) : Option ℝ :=
  minutes_multiplier_nan r.minutes (avgMinutes rows)

/-- The pele_raw of row `r` with the non-finite multiplier tracked: a
non-finite min_mult propagates through `base_score * min_mult`
(anything times NaN is NaN). -/
noncomputable def pele_raw_nan (w : PeleWeights) (rows : List Row) (r : Row) : Option ℝ :=
  (min_mult_nan rows r).map (fun m => (ocOf w r + dcOf w r) * m)

/-- Population mean of a list of values (`Series.mean`). -/
noncomputable def popMean (xs : List ℝ) : ℝ :=
  xs.sum / xs.length

/-- Population standard deviation, `Series.std(ddof=0)`: divide by N, not N-1. -/
noncomputable def popStd (xs : List ℝ) : ℝ :=
  Real.sqrt ((xs.map (fun x => (x - popMean xs) ^ 2)).sum / xs.length)

/-- Mirrors `_zscore` (metric.py lines 45-50): zero-variance (or undefined)
populations get z-score 0 for every member. -/
noncomputable def zscoreVal (xs : List ℝ) (x : ℝ) : ℝ :=
  if popStd xs = 0 then 0 else (x - popMean xs) / popStd xs

/-- The derived score columns of one output row (`oc`, `dc`, `base_score`,
`min_mult`, `pele_raw`, optional `pele_100`) together with the rate columns. -/
structure Scores where
  rates : Rates
  oc : ℝ
  dc : ℝ
  base_score : ℝ
  min_mult : ℝ
  pele_raw : ℝ
  pele_100 : Option ℝ

/-- Score columns of a row, given the population-level minutes reference
(metric.py lines 195-200). -/
noncomputable def scoresOf (w : PeleWeights) (reference : ℝ) (r : Row) : Scores :=
  { rates := ratesOf r
  , oc := ocOf w r
  , dc := dcOf w r
  , base_score := ocOf w r + dcOf w r
  , min_mult := minutes_multiplier r.minutes reference
  , pele_raw := (ocOf w r + dcOf w r) * minutes_multiplier r.minutes reference
  , pele_100 := none }

/-- Attach `pele_100 = 50 + 10 * zscore(pele_raw)` over a given population of
`pele_raw` values (metric.py lines 290 and 296). -/
noncomputable def stdScores (praws : List ℝ) (s : Scores) : Scores :=
  { s with pele_100 := some (50 + 10 * zscoreVal praws s.pele_raw) }

/-- One row of the row-level output table. -/
structure ScoreRow where
  player_id : String
  player_name : Option String
  scores : Scores

/-- Row-level `compute_pele` (`group_by=None`, metric.py lines 130-221 and
294-297): one output row per input row, in input order, optionally
standardized over the returned row population. -/
noncomputable def rowLevel (w : PeleWeights) (rows : List Row) (standardize : Bool) :
    List ScoreRow :=
  let base := rows.map (fun r =>
    { player_id := r.player_id, player_name := r.player_name
    , scores := scoresOf w (avgMinutes rows) r : ScoreRow })
  if standardize then
    base.map (fun s => { s with scores := stdScores (base.map (fun t => t.scores.pele_raw)) s.scores })
  else base

/-- Sum of one numeric column over a list of rows (`groupby(...).agg("sum")`,
metric.py lines 260 and 264). -/
noncomputable def sumStat (rows : List Row) (f : Row → ℝ) : ℝ :=
  (rows.map f).sum

/-- The weight used by the minutes-weighted percentage average: each row's
minutes with zero replaced by 1 (`weights=... .replace(0, 1)`, line 263). -/
noncomputable def weightOf (m : ℝ) : ℝ :=
  if m = 0 then 1 else m

/-- Minutes-weighted average of a percentage column over a group
(`np.average(x, weights=minutes.replace(0, 1))`, metric.py line 263). -/
noncomputable def wavgStat (rows : List Row) (f : Row → ℝ) : ℝ :=
  (rows.map (fun r => weightOf r.minutes * f r)).sum
    / (rows.map (fun r => weightOf r.minutes)).sum

/-- Mirrors the `name_agg` reducer of metric.py lines 269-271: the
lexicographically first among the most frequent non-null values
(`pd.Series.mode()` is sorted and drops nulls), falling back to the group's
first value when the mode set is empty (only possible when every value is
null, or the group is empty). -/
def modeAgg (xs : List (Option String)) : Option String :=
  let vals := xs.filterMap id
  let best := (vals.dedup.filter
    (fun v => vals.all (fun u => vals.count u ≤ vals.count v))).insertionSort (· ≤ ·)
  match best with
  | v :: _ => some v
  | [] => (xs.head?).getD none

/-- The representative name the final merge actually assigns to a group
(metric.py lines 281-287): drop null names, keep the first remaining row per
group key in input order. -/
def firstNameOf (rows : List Row) : Option String :=
  (rows.filterMap (fun r => r.player_name)).head?

variable {K : Type} [LinearOrder K] [DecidableEq K]

/-- Rows of one group: the rows whose group key equals `k`.  The group-by
column list of the code is modelled as a key function on rows. -/
def groupOf (key : Row → K) (rows : List Row) (k : K) : List Row :=
  rows.filter (fun r => decide (key r = k))

/-- The group keys in the iteration order pandas `groupby` uses
(`sort=True`, the default): the distinct keys in ascending order. -/
def groupKeys (key : Row → K) (rows : List Row) : List K :=
  ((rows.map key).dedup).insertionSort (· ≤ ·)

/-- The synthesized one-row-per-group frame `rep` (metric.py lines 258-273):
raw counting stats are summed, the two percentage stats get a
minutes-weighted average, `player_name` is resolved by the mode reducer, and
`match_id` is overwritten with the literal `"__aggregate__"`. -/
noncomputable def synthRow (key : Row → K) (rows : List Row) (k : K) : Row :=
  { player_id := ""
  , player_name := modeAgg ((groupOf key rows k).map (fun r => r.player_name))
  , match_id := "__aggregate__"
  , season := ""
  , minutes := sumStat (groupOf key rows k) (fun r => r.minutes)
  , np_goals := sumStat (groupOf key rows k) (fun r => r.np_goals)
  , penalty_goals := sumStat (groupOf key rows k) (fun r => r.penalty_goals)
  , assists := sumStat (groupOf key rows k) (fun r => r.assists)
  , xg := sumStat (groupOf key rows k) (fun r => r.xg)
  , xa := sumStat (groupOf key rows k) (fun r => r.xa)
  , key_passes := sumStat (groupOf key rows k) (fun r => r.key_passes)
  , progressive_passes := sumStat (groupOf key rows k) (fun r => r.progressive_passes)
  , progressive_carries := sumStat (groupOf key rows k) (fun r => r.progressive_carries)
  , successful_dribbles := sumStat (groupOf key rows k) (fun r => r.successful_dribbles)
  , turnovers := sumStat (groupOf key rows k) (fun r => r.turnovers)
  , tackles := sumStat (groupOf key rows k) (fun r => r.tackles)
  , interceptions := sumStat (groupOf key rows k) (fun r => r.interceptions)
  , blocks := sumStat (groupOf key rows k) (fun r => r.blocks)
  , aerials_won := sumStat (groupOf key rows k) (fun r => r.aerials_won)
  , shots := sumStat (groupOf key rows k) (fun r => r.shots)
  , shots_on_target := sumStat (groupOf key rows k) (fun r => r.shots_on_target)
  , pass_completion_pct := wavgStat (groupOf key rows k) (fun r => r.pass_completion_pct)
  , passes_into_final_third := sumStat (groupOf key rows k) (fun r => r.passes_into_final_third)
  , progressive_receives := sumStat (groupOf key rows k) (fun r => r.progressive_receives)
  , tackles_def_third := sumStat (groupOf key rows k) (fun r => r.tackles_def_third)
  , tackles_mid_third := sumStat (groupOf key rows k) (fun r => r.tackles_mid_third)
  , tackles_att_third := sumStat (groupOf key rows k) (fun r => r.tackles_att_third)
  , dribble_success_pct := wavgStat (groupOf key rows k) (fun r => r.dribble_success_pct) }

/-- The full synthesized aggregate frame, one row per group key, in group-key
iteration order.  This is the `rep` frame on which `compute_pele` recurses. -/
noncomputable def repsOf (key : Row → K) (rows : List Row) : List Row :=
  (groupKeys key rows).map (synthRow key rows)

/-- One row of the grouped output table. -/
structure GroupRow (K : Type) where
  key : K
  player_name : Option String
  scores : Scores

/-- Comparison used by the final `sort_values(by=["pele_raw"], ascending=False)`:
row `a` may precede row `b` when its pele_raw is at least `b`'s. -/
def prawGE {K : Type} (a b : GroupRow K) : Prop :=
  b.scores.pele_raw ≤ a.scores.pele_raw

noncomputable instance {K : Type} : DecidableRel (prawGE (K := K)) :=
  fun _ _ => Real.decidableLE _ _

instance {K : Type} : IsTotal (GroupRow K) prawGE :=
  ⟨fun a b => le_total b.scores.pele_raw a.scores.pele_raw⟩

instance {K : Type} : IsTrans (GroupRow K) prawGE :=
  ⟨fun _ _ _ h₁ h₂ => le_trans h₂ h₁⟩

/-- Descending sort of the grouped result.  pandas `nargsort` for
`sort_values(by=["pele_raw"], ascending=False)` reverses the values, runs a
stable ascending argsort, and reverses the resulting indexer again; the two
reversals cancel on ties, so the net effect is a stable descending sort —
rows ordered by pele_raw descending with ties kept in their original
(group-key iteration) order.  (pandas additionally appends NaN keys last in
original order; the real-valued embedding has no NaN keys.) -/
noncomputable def sortByPrawDesc {K : Type} (xs : List (GroupRow K)) : List (GroupRow K) :=
  xs.insertionSort prawGE

/-- The grouped result rows before standardization and sorting (metric.py
lines 276-287): the row-level pipeline re-run on the synthesized aggregate
frame (so the minutes reference is the mean over the aggregate rows), with
each group's `player_name` resolved by the final merge — the first non-null
name of the group in input order. -/
noncomputable def groupRowsOf (w : PeleWeights) (key : Row → K) (rows : List Row) :
    List (GroupRow K) :=
  (groupKeys key rows).map (fun k =>
    { key := k
    , player_name := firstNameOf (groupOf key rows k)
    , scores := scoresOf w (avgMinutes (repsOf key rows)) (synthRow key rows k) : GroupRow K })

/-- Grouped `compute_pele` (metric.py lines 223-292): build the grouped
result rows, optionally standardize over the grouped population, and sort by
`pele_raw` descending. -/
noncomputable def computeGrouped (w : PeleWeights) (key : Row → K) (rows : List Row)
    (standardize : Bool) : List (GroupRow K) :=
  let pre := groupRowsOf w key rows
  let wstd :=
    if standardize then
      pre.map (fun g => { g with scores := stdScores (pre.map (fun t => t.scores.pele_raw)) g.scores })
    else pre
  sortByPrawDesc wstd

/-- The required column list of the fixed-weight `compute_pele`
(metric.py lines 97-125), in source order. -/
def requiredCols : List String :=
  [ "player_id", "match_id", "minutes", "np_goals", "penalty_goals", "assists"
  , "xg", "xa", "key_passes", "progressive_passes", "progressive_carries"
  , "successful_dribbles", "turnovers", "tackles", "interceptions", "blocks"
  , "aerials_won", "shots", "shots_on_target", "pass_completion_pct"
  , "passes_into_final_third", "progressive_receives", "tackles_def_third"
  , "tackles_mid_third", "tackles_att_third", "dribble_success_pct" ]

/-- The summable aggregation columns `agg_cols` (metric.py lines 225-250). -/
def aggColsList : List String :=
  [ "minutes", "np_goals", "penalty_goals", "assists", "xg", "xa", "key_passes"
  , "progressive_passes", "progressive_carries", "successful_dribbles"
  , "turnovers", "tackles", "interceptions", "blocks", "aerials_won", "shots"
  , "shots_on_target", "passes_into_final_third", "progressive_receives"
  , "tackles_def_third", "tackles_mid_third", "tackles_att_third"
  , "dribble_attempts" ]

/-- The percentage columns aggregated by weighted average (metric.py line 252). -/
def pctColsList : List String :=
  ["pass_completion_pct", "dribble_success_pct"]

/-- The columns of the synthesized aggregate frame `rep` (metric.py lines
253-273): the group-key columns, the present summable and percentage
columns, `player_name` when it was carried along, and `match_id`, which is
assigned the literal `"__aggregate__"` (and therefore always present —
overwriting the group-key column of the same name if there is one). -/
def repColumns (groupCols cols : List String) : List String :=
  groupCols
    ++ aggColsList.filter (fun c => cols.contains c)
    ++ pctColsList.filter (fun c => cols.contains c)
    ++ (if cols.contains "player_name" && !(groupCols.contains "player_name") then
          ["player_name"] else [])
    ++ ["match_id"]

/-- The validation loop of metric.py lines 126-128: the error message for the
first required column missing from the input, if any. -/
def validationError (cols : List String) : Option String :=
  (requiredCols.find? (fun c => !(cols.contains c))).map
    (fun c => "Missing required column: " ++ c)

/-- Row-level `compute_pele` together with its schema validation: the code
raises `ValueError` before touching any data when a required column is
missing, so the result is modelled as `Except`. -/
noncomputable def compute_pele_row (w : PeleWeights) (cols : List String)
    (rows : List Row) (standardize : Bool) : Except String (List ScoreRow) :=
  match validationError cols with
  | some msg => Except.error msg
  | none => Except.ok (rowLevel w rows standardize)

/-- Grouped `compute_pele` with both validation steps: the outer check on the
input table, and the check the recursive `compute_pele(rep, group_by=None)`
call performs on the synthesized aggregate frame (metric.py line 276), whose
columns are `repColumns groupCols cols`.  `groupCols` is the column-name view
of the group key and `key` its semantic view on rows. -/
noncomputable def compute_pele_grouped (w : PeleWeights) (key : Row → K)
    (groupCols cols : List String) (rows : List Row) (standardize : Bool) :
    Except String (List (GroupRow K)) :=
  match validationError cols with
  | some msg => Except.error msg
  | none =>
    match validationError (repColumns groupCols cols) with
    | some msg => Except.error msg
    | none => Except.ok (computeGrouped w key rows standardize)

/-- The required column list of the position-weighted variant
(metric_position_weighted.py lines 140-159). -/
def pwRequiredCols : List String :=
  [ "player_id", "match_id", "minutes", "position", "np_goals", "assists"
  , "xg", "xa", "key_passes", "progressive_passes", "progressive_carries"
  , "successful_dribbles", "turnovers", "pressures_success", "tackles"
  , "interceptions", "blocks", "aerials_won" ]

/-- The validation loop of metric_position_weighted.py lines 160-162. -/
def pwValidationError (cols : List String) : Option String :=
  (pwRequiredCols.find? (fun c => !(cols.contains c))).map
    (fun c => "Missing required column: " ++ c)

/-- The five position buckets of the position-weighted variant. -/
inductive Bucket where
  | FW
  | WG
  | MF
  | FB
  | CB
deriving DecidableEq

/-- The thirteen stats carrying position-specific weights. -/
inductive PStat where
  | goals
  | assists
  | xg
  | xa
  | key_passes
  | prog_pass
  | prog_carry
  | dribbles
  | turnovers
  | pressures
  | tackles_int
  | blocks
  | aerials
deriving DecidableEq

/-- ASCII upper-casing of a label, the model of pandas `.str.upper()` on the
role-taxonomy labels (all ASCII). -/
def upperString (s : String) : String :=
  String.mk (s.data.map Char.toUpper)

/-- The model of `str.startswith`. -/
def strStarts (s pre : String) : Bool :=
  pre.data.isPrefixOf s.data

/-- The `to_bucket` rules of `_position_bucket`
(metric_position_weighted.py lines 70-87), applied to the upper-cased label. -/
def toBucket (p : String) : Bucket :=
  if strStarts p "ST" || strStarts p "CF" || p == "FW" then Bucket.FW
  else if p == "LW" || p == "RW" || strStarts p "AM" || p == "CAM" then Bucket.WG
  else if p == "CM" || p == "DM" || p == "CDM" || p == "LCM" || p == "RCM" then Bucket.MF
  else if p == "LB" || p == "RB" || p == "LWB" || p == "RWB" || p == "WB" || p == "FB" then
    Bucket.FB
  else if p == "CB" || p == "RCB" || p == "LCB" then Bucket.CB
  else Bucket.MF

/-- `_position_bucket` (metric_position_weighted.py lines 66-89): missing
labels become the empty string, labels are upper-cased, then bucketed. -/
def positionBucket (pos : Option String) : Bucket :=
  toBucket (upperString (pos.getD ""))

/-- The `POSITION_WEIGHTS` ordinal table
(metric_position_weighted.py lines 11-37). -/
noncomputable def positionWeights : Bucket → PStat → ℝ
  | Bucket.FW, PStat.goals => 5
  | Bucket.FW, PStat.assists => 3
  | Bucket.FW, PStat.xg => 5
  | Bucket.FW, PStat.xa => 3
  | Bucket.FW, PStat.key_passes => 3
  | Bucket.FW, PStat.prog_pass => 1
  | Bucket.FW, PStat.prog_carry => 4
  | Bucket.FW, PStat.dribbles => 4
  | Bucket.FW, PStat.turnovers => 3
  | Bucket.FW, PStat.pressures => 3
  | Bucket.FW, PStat.tackles_int => 1
  | Bucket.FW, PStat.blocks => 1
  | Bucket.FW, PStat.aerials => 3
  | Bucket.WG, PStat.goals => 4
  | Bucket.WG, PStat.assists => 5
  | Bucket.WG, PStat.xg => 4
  | Bucket.WG, PStat.xa => 5
  | Bucket.WG, PStat.key_passes => 5
  | Bucket.WG, PStat.prog_pass => 3
  | Bucket.WG, PStat.prog_carry => 5
  | Bucket.WG, PStat.dribbles => 5
  | Bucket.WG, PStat.turnovers => 5
  | Bucket.WG, PStat.pressures => 3
  | Bucket.WG, PStat.tackles_int => 1
  | Bucket.WG, PStat.blocks => 1
  | Bucket.WG, PStat.aerials => 1
  | Bucket.MF, PStat.goals => 3
  | Bucket.MF, PStat.assists => 4
  | Bucket.MF, PStat.xg => 3
  | Bucket.MF, PStat.xa => 4
  | Bucket.MF, PStat.key_passes => 4
  | Bucket.MF, PStat.prog_pass => 5
  | Bucket.MF, PStat.prog_carry => 3
  | Bucket.MF, PStat.dribbles => 3
  | Bucket.MF, PStat.turnovers => 5
  | Bucket.MF, PStat.pressures => 4
  | Bucket.MF, PStat.tackles_int => 4
  | Bucket.MF, PStat.blocks => 3
  | Bucket.MF, PStat.aerials => 3
  | Bucket.FB, PStat.goals => 1
  | Bucket.FB, PStat.assists => 4
  | Bucket.FB, PStat.xg => 1
  | Bucket.FB, PStat.xa => 4
  | Bucket.FB, PStat.key_passes => 4
  | Bucket.FB, PStat.prog_pass => 5
  | Bucket.FB, PStat.prog_carry => 4
  | Bucket.FB, PStat.dribbles => 4
  | Bucket.FB, PStat.turnovers => 5
  | Bucket.FB, PStat.pressures => 4
  | Bucket.FB, PStat.tackles_int => 5
  | Bucket.FB, PStat.blocks => 3
  | Bucket.FB, PStat.aerials => 3
  | Bucket.CB, PStat.goals => 1
  | Bucket.CB, PStat.assists => 1
  | Bucket.CB, PStat.xg => 1
  | Bucket.CB, PStat.xa => 1
  | Bucket.CB, PStat.key_passes => 1
  | Bucket.CB, PStat.prog_pass => 3
  | Bucket.CB, PStat.prog_carry => 1
  | Bucket.CB, PStat.dribbles => 1
  | Bucket.CB, PStat.turnovers => 3
  | Bucket.CB, PStat.pressures => 5
  | Bucket.CB, PStat.tackles_int => 5
  | Bucket.CB, PStat.blocks => 5
  | Bucket.CB, PStat.aerials => 5

/-- The `BASE_WEIGHTS` magnitude table
(metric_position_weighted.py lines 40-54). -/
noncomputable def baseWeights : PStat → ℝ
  | PStat.goals => 0.24
  | PStat.assists => 0.20
  | PStat.xg => 0.10
  | PStat.xa => 0.08
  | PStat.key_passes => 0.04
  | PStat.prog_pass => 0.016
  | PStat.prog_carry => 0.012
  | PStat.dribbles => 0.012
  | PStat.turnovers => 0.02
  | PStat.pressures => 0.012
  | PStat.tackles_int => 0.024
  | PStat.blocks => 0.016
  | PStat.aerials => 0.01

/-- The per-row effective weight `get_weight` of the position-weighted
scorer (metric_position_weighted.py lines 187-190):
`POSITION_WEIGHTS[bucket][stat] * BASE_WEIGHTS[stat]`. -/
noncomputable def getWeight (pos : Option String) (s : PStat) : ℝ :=
  positionWeights (positionBucket pos) s * baseWeights s

lemma per90_zero (v : ℝ) : per90 0 v = 0 := by
  simp [per90]

lemma ratesOf_zero_minutes {r : Row} (h : r.minutes = 0) : ratesOf r = zeroRates := by
  ext <;> simp [ratesOf, per90, h, zeroRates]

lemma minutes_multiplier_zero (reference : ℝ) : minutes_multiplier 0 reference = 0 := by
  simp [minutes_multiplier, Real.log_one]

lemma min_mult_nan_of_pos {rows : List Row} (r : Row) (h : 0 < avgMinutes rows) :
    min_mult_nan rows r = some (minutes_multiplier r.minutes (avgMinutes rows)) := by
  unfold min_mult_nan minutes_multiplier_nan
  rw [if_neg (ne_of_gt (Real.log_pos (by linarith)))]

lemma ocOf_zero_minutes (w : PeleWeights) {r : Row} (h : r.minutes = 0) :
    ocOf w r = w.w_pass_pct * (r.pass_completion_pct / 100)
      + w.w_drib * (r.dribble_success_pct / 100) := by
  simp [ocOf, ratesOf, per90, h]

lemma dcOf_zero_minutes (w : PeleWeights) {r : Row} (h : r.minutes = 0) : dcOf w r = 0 := by
  simp [dcOf, ratesOf, per90, h]

/-- The non-standardized score fields of two score records agree. -/
def coreEq (s t : Scores) : Prop :=
  s.rates = t.rates ∧ s.oc = t.oc ∧ s.dc = t.dc ∧ s.base_score = t.base_score
    ∧ s.min_mult = t.min_mult ∧ s.pele_raw = t.pele_raw

lemma coreEq_refl (s : Scores) : coreEq s s :=
  ⟨rfl, rfl, rfl, rfl, rfl, rfl⟩

lemma stdScores_coreEq (praws : List ℝ) (s : Scores) : coreEq (stdScores praws s) s := by
  simp [coreEq, stdScores]

lemma rowLevel_length (w : PeleWeights) (rows : List Row) (std : Bool) :
    (rowLevel w rows std).length = rows.length := by
  cases std <;> simp [rowLevel]

lemma rowLevel_get_core (w : PeleWeights) (rows : List Row) (std : Bool) (i : ℕ)
    (hi : i < rows.length) (hlen : i < (rowLevel w rows std).length) :
    coreEq ((rowLevel w rows std).get ⟨i, hlen⟩).scores
      (scoresOf w (avgMinutes rows) (rows.get ⟨i, hi⟩)) := by
  cases std <;> simp [rowLevel, coreEq, stdScores]

lemma sumStat_singleton (f : Row → ℝ) (r : Row) : sumStat [r] f = f r := by
  simp [sumStat]

lemma weightOf_ne_zero (m : ℝ) : weightOf m ≠ 0 := by
  by_cases h : m = 0 <;> simp [weightOf, h]

lemma wavgStat_singleton (f : Row → ℝ) (r : Row) : wavgStat [r] f = f r := by
  unfold wavgStat
  simp only [List.map_cons, List.map_nil, List.sum_cons, List.sum_nil, add_zero]
  exact mul_div_cancel_left₀ (f r) (weightOf_ne_zero r.minutes)

lemma groupOf_self_singleton {K : Type} [LinearOrder K] [DecidableEq K] {key : Row → K} :
    ∀ {rows : List Row}, (rows.map key).Nodup → ∀ {r : Row}, r ∈ rows →
      groupOf key rows (key r) = [r] := by
  intro rows
  induction rows with
  | nil => intro _ r hr; cases hr
  | cons a l ih =>
    intro hnd r hr
    rw [List.map_cons, List.nodup_cons] at hnd
    obtain ⟨ha, hl⟩ := hnd
    rcases List.mem_cons.mp hr with h | hmem
    · subst h
      unfold groupOf
      rw [List.filter_cons_of_pos (by simp)]
      have hnil : List.filter (fun x => decide (key x = key r)) l = [] := by
        refine List.filter_eq_nil_iff.mpr ?_
        intro x hx
        simp only [decide_eq_true_eq]
        intro hkey
        exact ha (hkey ▸ List.mem_map_of_mem key hx)
      rw [hnil]
    · have hne : ¬ (key a = key r) := by
        intro h
        exact ha (h ▸ List.mem_map_of_mem key hmem)
      unfold groupOf
      rw [List.filter_cons_of_neg (by simpa using hne)]
      exact ih hl hmem

lemma groupKeys_perm {K : Type} [LinearOrder K] [DecidableEq K] {key : Row → K} {rows : List Row}
    (h : (rows.map key).Nodup) : (groupKeys key rows).Perm (rows.map key) := by
  unfold groupKeys
  rw [List.dedup_eq_self.mpr h]
  exact List.perm_insertionSort _ _

lemma mem_groupKeys_of_mem {K : Type} [LinearOrder K] [DecidableEq K] {key : Row → K} {rows : List Row}
    {r : Row} (hr : r ∈ rows) : key r ∈ groupKeys key rows := by
  unfold groupKeys
  rw [List.mem_insertionSort, List.mem_dedup]
  exact List.mem_map_of_mem key hr

lemma synthRow_groupOf_eq {K : Type} [LinearOrder K] [DecidableEq K] {key : Row → K} {rows : List Row}
    {k : K} {r : Row} (h : groupOf key rows k = [r]) :
    synthRow key rows k =
      { r with player_id := "", player_name := modeAgg [r.player_name]
             , match_id := "__aggregate__", season := "" } := by
  unfold synthRow
  rw [h]
  ext <;> simp [sumStat_singleton, wavgStat_singleton]

lemma scoresOf_update (w : PeleWeights) (reference : ℝ) (r : Row) (pid : String)
    (pn : Option String) (mid sea : String) :
    scoresOf w reference
        { r with player_id := pid, player_name := pn, match_id := mid, season := sea }
      = scoresOf w reference r := rfl

lemma repsOf_minutes_eq {K : Type} [LinearOrder K] [DecidableEq K] {key : Row → K} {rows : List Row}
    (h : (rows.map key).Nodup) :
    ((repsOf key rows).map (fun r => r.minutes)).Perm (rows.map (fun r => r.minutes)) := by
  unfold repsOf
  rw [List.map_map]
  have h1 := (groupKeys_perm h).map (fun k => (synthRow key rows k).minutes)
  refine h1.trans ?_
  rw [List.map_map]
  have h2 : ∀ r ∈ rows, (synthRow key rows (key r)).minutes = r.minutes := by
    intro r hr
    rw [synthRow_groupOf_eq (groupOf_self_singleton h hr)]
  simp only [Function.comp_def]
  rw [List.map_congr_left (fun r hr => h2 r hr)]

lemma avgMinutes_repsOf {K : Type} [LinearOrder K] [DecidableEq K] {key : Row → K} {rows : List Row}
    (h : (rows.map key).Nodup) : avgMinutes (repsOf key rows) = avgMinutes rows := by
  have hp := repsOf_minutes_eq h
  have hl : (repsOf key rows).length = rows.length := by
    have := hp.length_eq
    simpa using this
  unfold avgMinutes
  rw [hp.sum_eq, hl]

lemma popMean_perm {xs ys : List ℝ} (h : xs.Perm ys) : popMean xs = popMean ys := by
  unfold popMean
  rw [h.sum_eq, h.length_eq]

lemma popStd_perm {xs ys : List ℝ} (h : xs.Perm ys) : popStd xs = popStd ys := by
  unfold popStd
  rw [popMean_perm h, (h.map (fun x => (x - popMean ys) ^ 2)).sum_eq, h.length_eq]

lemma popStd_singleton (x : ℝ) : popStd [x] = 0 := by
  simp [popStd, popMean]

lemma popStd_replicate (n : ℕ) (c : ℝ) : popStd (List.replicate n c) = 0 := by
  cases n with
  | zero => simp [popStd, popMean]
  | succ m =>
    have hm : popMean (List.replicate (m + 1) c) = c := by
      unfold popMean
      rw [List.sum_replicate, List.length_replicate, nsmul_eq_mul]
      exact mul_div_cancel_left₀ c (by positivity)
    unfold popStd
    rw [hm]
    simp

lemma mem_sortByPrawDesc {K : Type} {xs : List (GroupRow K)} {g : GroupRow K} :
    g ∈ sortByPrawDesc xs ↔ g ∈ xs := by
  unfold sortByPrawDesc
  rw [List.mem_insertionSort]

lemma sortByPrawDesc_perm {K : Type} (xs : List (GroupRow K)) : (sortByPrawDesc xs).Perm xs := by
  unfold sortByPrawDesc
  exact List.perm_insertionSort _ _

lemma coreEq_of_eq {s t : Scores} (h : s = t) : coreEq s t := by
  rw [h]; exact coreEq_refl t

lemma coreEq_symm {s t : Scores} (h : coreEq s t) : coreEq t s := by
  obtain ⟨h1, h2, h3, h4, h5, h6⟩ := h
  exact ⟨h1.symm, h2.symm, h3.symm, h4.symm, h5.symm, h6.symm⟩

lemma coreEq_trans {s t u : Scores} (h1 : coreEq s t) (h2 : coreEq t u) : coreEq s u := by
  obtain ⟨a1, a2, a3, a4, a5, a6⟩ := h1
  obtain ⟨b1, b2, b3, b4, b5, b6⟩ := h2
  exact ⟨a1.trans b1, a2.trans b2, a3.trans b3, a4.trans b4, a5.trans b5, a6.trans b6⟩

lemma dedup_replicate_succ {α : Type} [DecidableEq α] (n : ℕ) (c : α) :
    (List.replicate (n + 1) c).dedup = [c] := by
  induction n with
  | zero => rfl
  | succ m ih =>
    rw [List.replicate_succ, List.dedup_cons_of_mem (by simp)]
    exact ih

lemma filter_self_idem {α : Type} (l : List α) (p : α → Bool) :
    (l.filter p).filter p = l.filter p := by
  rw [List.filter_filter]
  simp

lemma synthRow_congr {K : Type} [LinearOrder K] [DecidableEq K] {key : Row → K} {rows₁ rows₂ : List Row}
    {k : K} (h : groupOf key rows₁ k = groupOf key rows₂ k) :
    synthRow key rows₁ k = synthRow key rows₂ k := by
  unfold synthRow
  rw [h]

lemma groupOf_filter_self {K : Type} [LinearOrder K] [DecidableEq K] (key : Row → K) (rows : List Row)
    (k : K) :
    groupOf key (rows.filter (fun r => decide (key r = k))) k = groupOf key rows k := by
  unfold groupOf
  exact filter_self_idem rows _

lemma groupKeys_filter_self {K : Type} [LinearOrder K] [DecidableEq K] (key : Row → K) (rows : List Row)
    (k : K) (h : ∃ r ∈ rows, key r = k) :
    groupKeys key (rows.filter (fun r => decide (key r = k))) = [k] := by
  obtain ⟨r, hr, hkr⟩ := h
  have hmem : r ∈ rows.filter (fun r => decide (key r = k)) := by
    rw [List.mem_filter]
    exact ⟨hr, by simpa using hkr⟩
  have hrep : (rows.filter (fun r => decide (key r = k))).map key =
      List.replicate ((rows.filter (fun r => decide (key r = k))).map key).length k := by
    refine List.eq_replicate_iff.mpr ⟨rfl, ?_⟩
    intro b hb
    obtain ⟨x, hx, hxb⟩ := List.mem_map.mp hb
    have := (List.mem_filter.mp hx).2
    simp only [decide_eq_true_eq] at this
    rw [← hxb, this]
  have hlen : ((rows.filter (fun r => decide (key r = k))).map key).length ≠ 0 := by
    intro h0
    rw [List.length_eq_zero, List.map_eq_nil_iff] at h0
    rw [h0] at hmem
    cases hmem
  obtain ⟨m, hm⟩ := Nat.exists_eq_succ_of_ne_zero hlen
  unfold groupKeys
  rw [hrep, hm, dedup_replicate_succ]
  simp [List.insertionSort, List.orderedInsert]

lemma zscoreVal_perm {xs ys : List ℝ} (h : xs.Perm ys) (x : ℝ) :
    zscoreVal xs x = zscoreVal ys x := by
  unfold zscoreVal
  rw [popStd_perm h, popMean_perm h]

lemma rowLevel_praw_map (w : PeleWeights) (rows : List Row) (std : Bool) :
    (rowLevel w rows std).map (fun s => s.scores.pele_raw)
      = rows.map (fun r => (scoresOf w (avgMinutes rows) r).pele_raw) := by
  cases std <;> simp [rowLevel, stdScores, Function.comp_def]

lemma rowLevel_pele_100 (w : PeleWeights) (rows : List Row) (i : ℕ)
    (hlen : i < (rowLevel w rows true).length) :
    ((rowLevel w rows true).get ⟨i, hlen⟩).scores.pele_100
      = some (50 + 10 * zscoreVal ((rowLevel w rows true).map (fun s => s.scores.pele_raw))
          (((rowLevel w rows true).get ⟨i, hlen⟩).scores.pele_raw)) := by
  simp [rowLevel, stdScores, Function.comp_def]

lemma rowLevel_praws_length (w : PeleWeights) (rows : List Row) (std : Bool) :
    ((rowLevel w rows std).map (fun s => s.scores.pele_raw)).length = rows.length := by
  rw [List.length_map, rowLevel_length]

lemma computeGrouped_pele_100 {K : Type} [LinearOrder K] [DecidableEq K] (w : PeleWeights) (key : Row → K)
    (rows : List Row) {g : GroupRow K} (hg : g ∈ computeGrouped w key rows true) :
    g.scores.pele_100
      = some (50 + 10 * zscoreVal
          ((computeGrouped w key rows true).map (fun t => t.scores.pele_raw))
          g.scores.pele_raw) := by
  have hperm : ((computeGrouped w key rows true).map (fun t => t.scores.pele_raw)).Perm
      (((groupRowsOf w key rows).map (fun g =>
          { g with scores := stdScores ((groupRowsOf w key rows).map (fun t => t.scores.pele_raw)) g.scores
          : GroupRow K })).map (fun t => t.scores.pele_raw)) := by
    exact (sortByPrawDesc_perm _).map _
  have hpre : (((groupRowsOf w key rows).map (fun g =>
        { g with scores := stdScores ((groupRowsOf w key rows).map (fun t => t.scores.pele_raw)) g.scores
        : GroupRow K })).map (fun t => t.scores.pele_raw))
      = (groupRowsOf w key rows).map (fun t => t.scores.pele_raw) := by
    rw [List.map_map]
    refine List.map_congr_left ?_
    intro g hgm
    simp [stdScores]
  have hmem : g ∈ (groupRowsOf w key rows).map (fun g =>
      { g with scores := stdScores ((groupRowsOf w key rows).map (fun t => t.scores.pele_raw)) g.scores
      : GroupRow K }) := by
    have := mem_sortByPrawDesc.mp hg
    simpa [computeGrouped] using this
  obtain ⟨g0, hg0, hg0eq⟩ := List.mem_map.mp hmem
  rw [hpre] at hperm
  rw [zscoreVal_perm hperm]
  rw [← hg0eq]
  simp [stdScores]

lemma validationError_eq_none {cols : List String} (h : requiredCols ⊆ cols) :
    validationError cols = none := by
  unfold validationError
  rw [List.find?_eq_none.mpr]
  · rfl
  · intro c hc
    simp [h hc]

lemma pwValidationError_isSome {cols : List String}
    (h : ∃ c ∈ pwRequiredCols, c ∉ cols) : (pwValidationError cols).isSome := by
  obtain ⟨c, hc, hnc⟩ := h
  unfold pwValidationError
  cases hf : pwRequiredCols.find? (fun c => !(cols.contains c)) with
  | none =>
    have := List.find?_eq_none.mp hf c hc
    simp [hnc] at this
  | some c0 => simp

lemma validationError_isSome {cols : List String}
    (h : ∃ c ∈ requiredCols, c ∉ cols) : (validationError cols).isSome := by
  obtain ⟨c, hc, hnc⟩ := h
  unfold validationError
  cases hf : requiredCols.find? (fun c => !(cols.contains c)) with
  | none =>
    have := List.find?_eq_none.mp hf c hc
    simp [hnc] at this
  | some c0 => simp

lemma required_subset_repColumns {groupCols cols : List String}
    (hpid : "player_id" ∈ groupCols) (hcols : requiredCols ⊆ cols) :
    requiredCols ⊆ repColumns groupCols cols := by
  intro c hc
  have hmemcols : c ∈ cols := hcols hc
  have hcases : c = "player_id" ∨ c = "match_id" ∨ c ∈ pctColsList ∨ c ∈ aggColsList := by
    fin_cases hc <;> simp [pctColsList, aggColsList]
  unfold repColumns
  rcases hcases with h | h | h | h
  · subst h
    exact List.mem_append_left _ (List.mem_append_left _ (List.mem_append_left _
      (List.mem_append_left _ hpid)))
  · subst h
    exact List.mem_append_right _ (by simp)
  · refine List.mem_append_left _ (List.mem_append_left _ (List.mem_append_right _ ?_))
    exact List.mem_filter.mpr ⟨h, by simpa using hmemcols⟩
  · refine List.mem_append_left _ (List.mem_append_left _ (List.mem_append_left _
      (List.mem_append_right _ ?_)))
    exact List.mem_filter.mpr ⟨h, by simpa using hmemcols⟩

lemma computeGrouped_mem_core {K : Type} [LinearOrder K] [DecidableEq K] (w : PeleWeights) (key : Row → K)
    (rows : List Row) (std : Bool) {k : K} (hk : k ∈ groupKeys key rows) :
    ∃ g ∈ computeGrouped w key rows std, g.key = k
      ∧ coreEq g.scores (scoresOf w (avgMinutes (repsOf key rows)) (synthRow key rows k)) := by
  cases std with
  | false =>
    refine ⟨{ key := k, player_name := firstNameOf (groupOf key rows k)
            , scores := scoresOf w (avgMinutes (repsOf key rows)) (synthRow key rows k) },
      ?_, rfl, coreEq_refl _⟩
    show _ ∈ sortByPrawDesc (groupRowsOf w key rows)
    exact mem_sortByPrawDesc.mpr (List.mem_map_of_mem _ hk)
  | true =>
    refine ⟨{ key := k, player_name := firstNameOf (groupOf key rows k)
            , scores := stdScores ((groupRowsOf w key rows).map (fun t => t.scores.pele_raw))
                (scoresOf w (avgMinutes (repsOf key rows)) (synthRow key rows k)) },
      ?_, rfl, stdScores_coreEq _ _⟩
    refine mem_sortByPrawDesc.mpr ?_
    exact List.mem_map_of_mem _ (List.mem_map_of_mem _ hk)

/-- A canonical all-zero input row used by the concrete test inputs below. -/
noncomputable def blankRow : Row :=
  { player_id := "p", player_name := none, match_id := "m", season := "s"
  , minutes := 0, np_goals := 0, penalty_goals := 0, assists := 0, xg := 0, xa := 0
  , key_passes := 0, progressive_passes := 0, progressive_carries := 0
  , successful_dribbles := 0, turnovers := 0, tackles := 0, interceptions := 0
  , blocks := 0, aerials_won := 0, shots := 0, shots_on_target := 0
  , pass_completion_pct := 0, passes_into_final_third := 0, progressive_receives := 0
  , tackles_def_third := 0, tackles_mid_third := 0, tackles_att_third := 0
  , dribble_success_pct := 0 }

/-- Zero-minute row with perfect pass completion, for the percentage-term test. -/
noncomputable def rowPct : Row :=
  { blankRow with pass_completion_pct := 100 }

/-- A 90-minute row. -/
noncomputable def row90 : Row :=
  { blankRow with minutes := 90 }

/-- A 30-minute row. -/
noncomputable def row30 : Row :=
  { blankRow with minutes := 30, match_id := "m2" }

/-- Three rows of one player whose names are A, B, B: the mode is B while the
first non-null name is A. -/
noncomputable def nameRowA : Row :=
  { blankRow with player_name := some "A" }

noncomputable def nameRowB1 : Row :=
  { blankRow with player_name := some "B", match_id := "m2" }

noncomputable def nameRowB2 : Row :=
  { blankRow with player_name := some "B", match_id := "m3" }

/-- Two all-zero rows for two distinct players: their grouped scores tie. -/
noncomputable def rowKeyA : Row :=
  { blankRow with player_id := "a" }

noncomputable def rowKeyB : Row :=
  { blankRow with player_id := "b", match_id := "m2" }

/-- A second match row of the same player and season as `blankRow`. -/
noncomputable def blankRow2 : Row :=
  { blankRow with match_id := "m2" }

/-- C2 (amended): for every row with minutes = 0, every per-90 rate column
of its row-level output row equals 0 unconditionally; and whenever the
invocation's mean minutes is positive (the population has some playing
time), min_mult equals 0 — also in the model that tracks numpy's non-finite
results — and therefore pele_raw equals 0.  In an all-zero-minutes
population the reference is 0 and min_mult is log1p(0)/log1p(0) = NaN, not
0 (see the counterexample). -/
theorem c2_zero_minutes (w : PeleWeights) (rows : List Row) (std : Bool) (i : ℕ)
    (hi : i < rows.length) (hlen : i < (rowLevel w rows std).length)
    (h0 : (rows.get ⟨i, hi⟩).minutes = 0) :
    ((rowLevel w rows std).get ⟨i, hlen⟩).scores.rates = zeroRates
    ∧ (0 < avgMinutes rows →
        min_mult_nan rows (rows.get ⟨i, hi⟩) = some 0
        ∧ pele_raw_nan w rows (rows.get ⟨i, hi⟩) = some 0
        ∧ ((rowLevel w rows std).get ⟨i, hlen⟩).scores.min_mult = 0
        ∧ ((rowLevel w rows std).get ⟨i, hlen⟩).scores.pele_raw = 0) := by
  obtain ⟨h1, -, -, -, h5, h6⟩ := rowLevel_get_core w rows std i hi hlen
  constructor
  · rw [h1]
    simp only [scoresOf]
    exact ratesOf_zero_minutes h0
  · intro hpos
    have hmm0 : minutes_multiplier (rows.get ⟨i, hi⟩).minutes (avgMinutes rows) = 0 := by
      rw [h0]
      exact minutes_multiplier_zero _
    refine ⟨?_, ?_, ?_, ?_⟩
    · rw [min_mult_nan_of_pos _ hpos, hmm0]
    · unfold pele_raw_nan
      rw [min_mult_nan_of_pos _ hpos, hmm0]
      simp
    · rw [h5]
      simp only [scoresOf]
      exact hmm0
    · rw [h6]
      simp only [scoresOf]
      rw [hmm0, mul_zero]

/-- Counterexample to C2 as stated: a table whose only row has 0 minutes.
The mean minutes is 0, so the code divides log1p(0) by log1p(0), and
min_mult and pele_raw come out NaN (non-finite), not 0. -/
theorem c2_zero_minutes_counterexample :
    blankRow.minutes = 0
    ∧ min_mult_nan [blankRow] blankRow = none
    ∧ min_mult_nan [blankRow] blankRow ≠ some 0
    ∧ pele_raw_nan defaultWeights [blankRow] blankRow ≠ some 0 := by
  have havg : avgMinutes [blankRow] = 0 := by
    simp [avgMinutes, blankRow]
  have hmm : min_mult_nan [blankRow] blankRow = none := by
    unfold min_mult_nan minutes_multiplier_nan
    rw [havg]
    simp
  refine ⟨rfl, hmm, by simp [hmm], ?_⟩
  unfold pele_raw_nan
  rw [hmm]
  simp

/-- Witness for the amended C2: a zero-minute row scored in a population
with positive mean minutes. -/
theorem c2_zero_minutes_witness :
    ([blankRow, row90].get ⟨0, by norm_num⟩).minutes = 0
    ∧ 0 < avgMinutes [blankRow, row90]
    ∧ min_mult_nan [blankRow, row90] ([blankRow, row90].get ⟨0, by norm_num⟩) = some 0
    ∧ ((rowLevel defaultWeights [blankRow, row90] true).get
        ⟨0, by simp [rowLevel_length]⟩).scores.rates = zeroRates
    ∧ ((rowLevel defaultWeights [blankRow, row90] true).get
        ⟨0, by simp [rowLevel_length]⟩).scores.pele_raw = 0 := by
  have hpos : 0 < avgMinutes [blankRow, row90] := by
    norm_num [avgMinutes, blankRow, row90]
  refine ⟨rfl, hpos, ?_, ?_, ?_⟩
  · exact ((c2_zero_minutes defaultWeights [blankRow, row90] true 0 (by norm_num)
      (by simp [rowLevel_length]) rfl).2 hpos).1
  · exact (c2_zero_minutes defaultWeights [blankRow, row90] true 0 (by norm_num)
      (by simp [rowLevel_length]) rfl).1
  · exact ((c2_zero_minutes defaultWeights [blankRow, row90] true 0 (by norm_num)
      (by simp [rowLevel_length]) rfl).2 hpos).2.2.2

/-- C10 (amended): for a zero-minute row in the fixed-weight variant, oc
reduces to the two percentage terms (pass completion and dribble success,
each divided by 100), dc is 0, and base_score equals oc — so oc and
base_score can be nonzero, as the concrete zero-minute row with 100 percent
pass completion shows; and whenever the population's mean minutes is
positive, min_mult is 0 (also in the non-finite-tracking model), which is
the only reason pele_raw is 0.  For an all-zero-minutes population min_mult
and pele_raw are NaN instead (see the counterexample). -/
theorem c10_pct_terms (w : PeleWeights) (rows : List Row) (std : Bool) (i : ℕ)
    (hi : i < rows.length) (hlen : i < (rowLevel w rows std).length)
    (h0 : (rows.get ⟨i, hi⟩).minutes = 0) :
    (((rowLevel w rows std).get ⟨i, hlen⟩).scores.oc
        = w.w_pass_pct * ((rows.get ⟨i, hi⟩).pass_completion_pct / 100)
          + w.w_drib * ((rows.get ⟨i, hi⟩).dribble_success_pct / 100)
      ∧ ((rowLevel w rows std).get ⟨i, hlen⟩).scores.dc = 0
      ∧ ((rowLevel w rows std).get ⟨i, hlen⟩).scores.base_score
          = ((rowLevel w rows std).get ⟨i, hlen⟩).scores.oc)
    ∧ (0 < avgMinutes rows →
        ((rowLevel w rows std).get ⟨i, hlen⟩).scores.min_mult = 0
        ∧ ((rowLevel w rows std).get ⟨i, hlen⟩).scores.pele_raw = 0
        ∧ min_mult_nan rows (rows.get ⟨i, hi⟩) = some 0
        ∧ pele_raw_nan w rows (rows.get ⟨i, hi⟩) = some 0)
    ∧ ((rowLevel defaultWeights [rowPct] false).get
        ⟨0, by simp [rowLevel_length]⟩).scores.oc ≠ 0 := by
  obtain ⟨-, h2, h3, h4, h5, h6⟩ := rowLevel_get_core w rows std i hi hlen
  refine ⟨⟨?_, ?_, ?_⟩, ?_, ?_⟩
  · rw [h2]
    simp only [scoresOf]
    exact ocOf_zero_minutes w h0
  · rw [h3]
    simp only [scoresOf]
    exact dcOf_zero_minutes w h0
  · rw [h4, h2]
    simp only [scoresOf]
    rw [dcOf_zero_minutes w h0, add_zero]
  · intro hpos
    have hmm0 : minutes_multiplier (rows.get ⟨i, hi⟩).minutes (avgMinutes rows) = 0 := by
      rw [h0]
      exact minutes_multiplier_zero _
    refine ⟨?_, ?_, ?_, ?_⟩
    · rw [h5]
      simp only [scoresOf]
      exact hmm0
    · rw [h6]
      simp only [scoresOf]
      rw [hmm0, mul_zero]
    · rw [min_mult_nan_of_pos _ hpos, hmm0]
    · unfold pele_raw_nan
      rw [min_mult_nan_of_pos _ hpos, hmm0]
      simp
  · have hoc : ((rowLevel defaultWeights [rowPct] false).get
        ⟨0, by simp [rowLevel_length]⟩).scores.oc = ocOf defaultWeights rowPct := by
      simp [rowLevel, scoresOf]
    rw [hoc, ocOf_zero_minutes defaultWeights (show rowPct.minutes = 0 from rfl)]
    norm_num [defaultWeights, rowPct, blankRow]

/-- Counterexample to C10 as stated: the single zero-minute row with 100
percent pass completion has nonzero oc, but its population's mean minutes is
0, so pele_raw is NaN (non-finite), not 0. -/
theorem c10_pct_terms_counterexample :
    rowPct.minutes = 0
    ∧ ocOf defaultWeights rowPct ≠ 0
    ∧ pele_raw_nan defaultWeights [rowPct] rowPct = none
    ∧ pele_raw_nan defaultWeights [rowPct] rowPct ≠ some 0 := by
  have havg : avgMinutes [rowPct] = 0 := by
    simp [avgMinutes, rowPct, blankRow]
  have hmm : min_mult_nan [rowPct] rowPct = none := by
    unfold min_mult_nan minutes_multiplier_nan
    rw [havg]
    simp
  have hpr : pele_raw_nan defaultWeights [rowPct] rowPct = none := by
    unfold pele_raw_nan
    rw [hmm]
    rfl
  refine ⟨rfl, ?_, hpr, by simp [hpr]⟩
  rw [ocOf_zero_minutes defaultWeights (show rowPct.minutes = 0 from rfl)]
  norm_num [defaultWeights, rowPct, blankRow]

/-- Witness for the amended C10: the percentage row scored in a population
with positive mean minutes. -/
theorem c10_pct_terms_witness :
    ([rowPct, row90].get ⟨0, by norm_num⟩).minutes = 0
    ∧ 0 < avgMinutes [rowPct, row90]
    ∧ ((rowLevel defaultWeights [rowPct, row90] false).get
        ⟨0, by simp [rowLevel_length]⟩).scores.oc
        = defaultWeights.w_pass_pct
            * (([rowPct, row90].get ⟨0, by norm_num⟩).pass_completion_pct / 100)
          + defaultWeights.w_drib
            * (([rowPct, row90].get ⟨0, by norm_num⟩).dribble_success_pct / 100)
    ∧ ((rowLevel defaultWeights [rowPct, row90] false).get
        ⟨0, by simp [rowLevel_length]⟩).scores.pele_raw = 0 := by
  have hpos : 0 < avgMinutes [rowPct, row90] := by
    norm_num [avgMinutes, rowPct, row90, blankRow]
  refine ⟨rfl, hpos, ?_, ?_⟩
  · exact (c10_pct_terms defaultWeights [rowPct, row90] false 0 (by norm_num)
      (by simp [rowLevel_length]) rfl).1.1
  · exact ((c10_pct_terms defaultWeights [rowPct, row90] false 0 (by norm_num)
      (by simp [rowLevel_length]) rfl).2.1 hpos).2.1

/-- C6: every row's min_mult equals the square of log(1+minutes) over
log(1+reference), where the reference is the mean of the minutes column over
the full population scored in that invocation; and the same row's multiplier
differs across invocations with different populations, as the concrete
90-minute row scored alone versus alongside a 30-minute row shows. -/
theorem c6_minutes_multiplier_formula :
    (∀ (w : PeleWeights) (rows : List Row) (std : Bool) (i : ℕ)
        (hi : i < rows.length) (hlen : i < (rowLevel w rows std).length),
      ((rowLevel w rows std).get ⟨i, hlen⟩).scores.min_mult
        = (Real.log (1 + (rows.get ⟨i, hi⟩).minutes) / Real.log (1 + avgMinutes rows)) ^ 2)
    ∧ ((rowLevel defaultWeights [row90] false).get
          ⟨0, by simp [rowLevel_length]⟩).scores.min_mult
        ≠ ((rowLevel defaultWeights [row90, row30] false).get
          ⟨0, by simp [rowLevel_length]⟩).scores.min_mult := by
  constructor
  · intro w rows std i hi hlen
    obtain ⟨-, -, -, -, h5, -⟩ := rowLevel_get_core w rows std i hi hlen
    rw [h5]
    simp only [scoresOf]
    rfl
  · have e1 : ((rowLevel defaultWeights [row90] false).get
        ⟨0, by simp [rowLevel_length]⟩).scores.min_mult
        = minutes_multiplier 90 (avgMinutes [row90]) := by
      simp [rowLevel, scoresOf, row90, blankRow]
    have ha1 : avgMinutes [row90] = 90 := by
      simp [avgMinutes, row90, blankRow]
    have e2 : ((rowLevel defaultWeights [row90, row30] false).get
        ⟨0, by simp [rowLevel_length]⟩).scores.min_mult
        = minutes_multiplier 90 (avgMinutes [row90, row30]) := by
      simp [rowLevel, scoresOf, row90, blankRow]
    have ha2 : avgMinutes [row90, row30] = 60 := by
      simp [avgMinutes, row90, row30, blankRow]
      norm_num
    rw [e1, ha1, e2, ha2]
    unfold minutes_multiplier
    norm_num
    have h61 : (0:ℝ) < Real.log 61 := Real.log_pos (by norm_num)
    have hlt : Real.log 61 < Real.log 91 := Real.log_lt_log (by norm_num) (by norm_num)
    exact ne_of_lt (one_lt_pow₀ ((one_lt_div h61).mpr hlt) (by norm_num))

/-- Witness for C6 at the concrete one-row population. -/
theorem c6_minutes_multiplier_formula_witness :
    (0 : ℕ) < [row90].length
    ∧ ((rowLevel defaultWeights [row90] false).get
        ⟨0, by simp [rowLevel_length]⟩).scores.min_mult
      = (Real.log (1 + ([row90].get ⟨0, by norm_num⟩).minutes)
          / Real.log (1 + avgMinutes [row90])) ^ 2 :=
  ⟨by norm_num,
   c6_minutes_multiplier_formula.1 defaultWeights [row90] false 0 (by norm_num)
     (by simp [rowLevel_length])⟩

/-- C9: position label RCB resolves to bucket CB, CAM to WG, the
unrecognized GK (and a missing label) to MF; every label resolves to one of
the five buckets; the ordinal table entries all lie in 1..5; and the
effective weight of a stat is the base magnitude times the bucket's ordinal
entry. -/
theorem c9_position_buckets :
    positionBucket (some "RCB") = Bucket.CB
    ∧ positionBucket (some "CAM") = Bucket.WG
    ∧ positionBucket (some "GK") = Bucket.MF
    ∧ positionBucket none = Bucket.MF
    ∧ (∀ pos : Option String,
        positionBucket pos = Bucket.FW ∨ positionBucket pos = Bucket.WG
        ∨ positionBucket pos = Bucket.MF ∨ positionBucket pos = Bucket.FB
        ∨ positionBucket pos = Bucket.CB)
    ∧ (∀ (b : Bucket) (s : PStat), (1:ℝ) ≤ positionWeights b s ∧ positionWeights b s ≤ 5)
    ∧ (∀ (pos : Option String) (s : PStat),
        getWeight pos s = baseWeights s * positionWeights (positionBucket pos) s) := by
  refine ⟨by decide, by decide, by decide, by decide, ?_, ?_, ?_⟩
  · intro pos
    cases h : positionBucket pos <;> simp [h]
  · intro b s
    cases b <;> cases s <;> constructor <;> norm_num [positionWeights]
  · intro pos s
    unfold getWeight
    ring

/-- C7: a table missing a required column makes compute_pele fail before any
computation, with an error naming a (in fact the first) missing required
column and no partial result; a table with all required columns computes,
and extra columns do not change the result.  The last conjunct states the
same validation behavior for the position-weighted variant. -/
theorem c7_validation :
    (∀ (w : PeleWeights) (cols : List String) (rows : List Row) (std : Bool) (msg : String),
      validationError cols = some msg →
        compute_pele_row w cols rows std = Except.error msg)
    ∧ (∀ cols : List String, (∃ c ∈ requiredCols, c ∉ cols) →
        (validationError cols).isSome)
    ∧ (∀ (cols : List String) (msg : String), validationError cols = some msg →
        ∃ c ∈ requiredCols, c ∉ cols ∧ msg = "Missing required column: " ++ c)
    ∧ (∀ (w : PeleWeights) (cols extra : List String) (rows : List Row) (std : Bool),
        requiredCols ⊆ cols →
          compute_pele_row w cols rows std = Except.ok (rowLevel w rows std)
          ∧ compute_pele_row w (cols ++ extra) rows std = Except.ok (rowLevel w rows std))
    ∧ (∀ cols : List String, (∃ c ∈ pwRequiredCols, c ∉ cols) →
        (pwValidationError cols).isSome) := by
  refine ⟨?_, ?_, ?_, ?_, ?_⟩
  · intro w cols rows std msg hmsg
    unfold compute_pele_row
    rw [hmsg]
  · intro cols h
    exact validationError_isSome h
  · intro cols msg hmsg
    unfold validationError at hmsg
    cases hf : requiredCols.find? (fun c => !(cols.contains c)) with
    | none => rw [hf] at hmsg; cases hmsg
    | some c =>
      rw [hf] at hmsg
      refine ⟨c, List.mem_of_find?_eq_some hf, ?_, ?_⟩
      · have := List.find?_some hf
        simpa using this
      · simpa using hmsg.symm
  · intro w cols extra rows std hsub
    have h1 : validationError cols = none := validationError_eq_none hsub
    have h2 : validationError (cols ++ extra) = none :=
      validationError_eq_none (fun c hc => List.mem_append_left _ (hsub hc))
    constructor
    · unfold compute_pele_row
      rw [h1]
    · unfold compute_pele_row
      rw [h2]
  · intro cols h
    exact pwValidationError_isSome h

/-- Witness for C7: dropping the minutes column from an otherwise complete
schema yields the named validation error; the complete schema computes, also
with an extra column appended. -/
theorem c7_validation_witness :
    compute_pele_row defaultWeights (requiredCols.erase "minutes") [] true
      = Except.error ("Missing required column: " ++ "minutes")
    ∧ compute_pele_row defaultWeights requiredCols [] true
      = Except.ok (rowLevel defaultWeights [] true)
    ∧ compute_pele_row defaultWeights (requiredCols ++ ["extra_col"]) [] true
      = Except.ok (rowLevel defaultWeights [] true) :=
  ⟨c7_validation.1 defaultWeights (requiredCols.erase "minutes") [] true
      ("Missing required column: " ++ "minutes") (by decide),
   (c7_validation.2.2.2.1 defaultWeights requiredCols ["extra_col"] [] true
      (fun c hc => hc)).1,
   (c7_validation.2.2.2.1 defaultWeights requiredCols ["extra_col"] [] true
      (fun c hc => hc)).2⟩

/-- C8: for a group key present in the table, the synthesized aggregate row
(the row holding the summed raw counting stats) computed from the full table
equals the one computed from just that group's rows in isolation, the
isolated table has exactly that one group, and the aggregate row is one of
the rows of the synthesized frame the grouped pipeline recurses on — no
cross-group leakage. -/
theorem c8_no_cross_group_leakage {K : Type} [LinearOrder K] [DecidableEq K] (key : Row → K)
    (rows : List Row) (k : K) (h : ∃ r ∈ rows, key r = k) :
    groupKeys key (groupOf key rows k) = [k]
    ∧ synthRow key (groupOf key rows k) k = synthRow key rows k
    ∧ synthRow key rows k ∈ repsOf key rows := by
  refine ⟨groupKeys_filter_self key rows k h, ?_, ?_⟩
  · exact synthRow_congr (groupOf_filter_self key rows k)
  · obtain ⟨r, hr, hkr⟩ := h
    exact List.mem_map_of_mem _ (hkr ▸ mem_groupKeys_of_mem hr)

/-- Witness for C8: three rows, two of them forming the (player p, season s)
group, keyed by the concatenated (player_id, season) pair. -/
theorem c8_no_cross_group_leakage_witness :
    (∃ r ∈ [blankRow, rowKeyB, blankRow2], r.player_id ++ "|" ++ r.season = "p|s")
    ∧ synthRow (fun r => r.player_id ++ "|" ++ r.season)
        (groupOf (fun r => r.player_id ++ "|" ++ r.season) [blankRow, rowKeyB, blankRow2] "p|s")
        "p|s"
        = synthRow (fun r => r.player_id ++ "|" ++ r.season) [blankRow, rowKeyB, blankRow2] "p|s"
    ∧ groupKeys (fun r => r.player_id ++ "|" ++ r.season)
        (groupOf (fun r => r.player_id ++ "|" ++ r.season) [blankRow, rowKeyB, blankRow2] "p|s")
        = ["p|s"] :=
  ⟨⟨blankRow, by simp, rfl⟩,
   (c8_no_cross_group_leakage (fun r => r.player_id ++ "|" ++ r.season)
      [blankRow, rowKeyB, blankRow2] "p|s" ⟨blankRow, by simp, rfl⟩).2.1,
   (c8_no_cross_group_leakage (fun r => r.player_id ++ "|" ++ r.season)
      [blankRow, rowKeyB, blankRow2] "p|s" ⟨blankRow, by simp, rfl⟩).1⟩

/-- C3 (divergence): for the group with names A, B, B the mode reducer the
code builds into the synthesized frame picks B, but the grouped output's
player_name is A — the final merge overrides the mode with the first
non-null name in input order. -/
theorem c3_name_mode_discarded :
    modeAgg ([nameRowA, nameRowB1, nameRowB2].map (fun r => r.player_name)) = some "B"
    ∧ (synthRow (fun r => r.player_id) [nameRowA, nameRowB1, nameRowB2] "p").player_name
        = some "B"
    ∧ (computeGrouped defaultWeights (fun r => r.player_id)
        [nameRowA, nameRowB1, nameRowB2] false).map (fun g => g.player_name) = [some "A"] := by
  refine ⟨by decide, by decide, by decide⟩

/-- C1 (amended): when the group key uniquely identifies each row and the
group-by column list contains player_id (so that the synthesized aggregate
frame passes the recursive schema validation), the grouped call succeeds and
every input row has a grouped output row with the same key and the same
per-90 rates, oc, dc, base_score, min_mult and pele_raw as its row-level
output row.  Grouping by a unique column that is not player_id — e.g.
match_id — instead raises a validation error (see the counterexample). -/
theorem c1_singleton_groups {K : Type} [LinearOrder K] [DecidableEq K] (w : PeleWeights)
    (key : Row → K) (groupCols cols : List String) (rows : List Row) (std : Bool)
    (hpid : "player_id" ∈ groupCols) (hcols : requiredCols ⊆ cols)
    (hnd : (rows.map key).Nodup) (i : ℕ) (hi : i < rows.length)
    (hlen : i < (rowLevel w rows std).length) :
    compute_pele_grouped w key groupCols cols rows std
      = Except.ok (computeGrouped w key rows std)
    ∧ ∃ g ∈ computeGrouped w key rows std,
        g.key = key (rows.get ⟨i, hi⟩)
        ∧ coreEq g.scores ((rowLevel w rows std).get ⟨i, hlen⟩).scores := by
  constructor
  · have h1 : validationError cols = none := validationError_eq_none hcols
    have h2 : validationError (repColumns groupCols cols) = none :=
      validationError_eq_none (required_subset_repColumns hpid hcols)
    unfold compute_pele_grouped
    rw [h1, h2]
  · have hrmem : rows.get ⟨i, hi⟩ ∈ rows := List.get_mem rows i hi
    have hk : key (rows.get ⟨i, hi⟩) ∈ groupKeys key rows := mem_groupKeys_of_mem hrmem
    obtain ⟨g, hg, hgk, hgcore⟩ := computeGrouped_mem_core w key rows std hk
    refine ⟨g, hg, hgk, ?_⟩
    have hsingle : groupOf key rows (key (rows.get ⟨i, hi⟩)) = [rows.get ⟨i, hi⟩] :=
      groupOf_self_singleton hnd hrmem
    have hsynth := synthRow_groupOf_eq hsingle
    have havg : avgMinutes (repsOf key rows) = avgMinutes rows := avgMinutes_repsOf hnd
    have heq : scoresOf w (avgMinutes (repsOf key rows))
          (synthRow key rows (key (rows.get ⟨i, hi⟩)))
        = scoresOf w (avgMinutes rows) (rows.get ⟨i, hi⟩) := by
      rw [havg, hsynth]
      rfl
    have hrow := rowLevel_get_core w rows std i hi hlen
    exact coreEq_trans (heq ▸ hgcore) (coreEq_symm hrow)

/-- Counterexample to C1 as stated: match_id uniquely identifies the rows of
a one-row table with exactly the required schema, yet grouping by match_id
does not reproduce the row-level computation — it raises a validation error,
because the synthesized aggregate frame has no player_id column (and its
match_id column is overwritten with the aggregate placeholder). -/
theorem c1_match_id_group_counterexample :
    ([blankRow].map (fun r => r.match_id)).Nodup
    ∧ compute_pele_grouped defaultWeights (fun r => r.match_id) ["match_id"] requiredCols
        [blankRow] true
      = Except.error ("Missing required column: " ++ "player_id") := by
  constructor
  · decide
  · have h1 : validationError requiredCols = none := validationError_eq_none (fun c hc => hc)
    have h2 : validationError (repColumns ["match_id"] requiredCols)
        = some ("Missing required column: " ++ "player_id") := by decide
    unfold compute_pele_grouped
    rw [h1, h2]

/-- Witness for the amended C1, at a one-row table grouped by player_id. -/
theorem c1_singleton_groups_witness :
    compute_pele_grouped defaultWeights (fun r => r.player_id) ["player_id"] requiredCols
        [blankRow] false
      = Except.ok (computeGrouped defaultWeights (fun r => r.player_id) [blankRow] false) :=
  (c1_singleton_groups defaultWeights (fun r => r.player_id) ["player_id"] requiredCols
    [blankRow] false (by decide) (fun c hc => hc) (by decide) 0 (by norm_num)
    (by simp [rowLevel_length])).1

/-- C5: with standardize=True every returned row's pele_100 is
50 + 10·(pele_raw − mean)/sigma over the returned population (population
standard deviation, divide by N), both for the row-level and the grouped
output; a zero std population — in particular a population of size one, or
one with all pele_raw identical — gets exactly 50 everywhere. -/
theorem c5_standardization {K : Type} [LinearOrder K] [DecidableEq K] :
    (∀ (w : PeleWeights) (rows : List Row) (i : ℕ)
        (hlen : i < (rowLevel w rows true).length),
      (popStd ((rowLevel w rows true).map (fun s => s.scores.pele_raw)) ≠ 0 →
        ((rowLevel w rows true).get ⟨i, hlen⟩).scores.pele_100
          = some (50 + 10 * ((((rowLevel w rows true).get ⟨i, hlen⟩).scores.pele_raw
              - popMean ((rowLevel w rows true).map (fun s => s.scores.pele_raw)))
              / popStd ((rowLevel w rows true).map (fun s => s.scores.pele_raw)))))
      ∧ (popStd ((rowLevel w rows true).map (fun s => s.scores.pele_raw)) = 0 →
          ((rowLevel w rows true).get ⟨i, hlen⟩).scores.pele_100 = some 50))
    ∧ (∀ (w : PeleWeights) (key : Row → K) (rows : List Row) (g : GroupRow K),
        g ∈ computeGrouped w key rows true →
        (popStd ((computeGrouped w key rows true).map (fun t => t.scores.pele_raw)) ≠ 0 →
          g.scores.pele_100 = some (50 + 10 * ((g.scores.pele_raw
            - popMean ((computeGrouped w key rows true).map (fun t => t.scores.pele_raw)))
            / popStd ((computeGrouped w key rows true).map (fun t => t.scores.pele_raw)))))
        ∧ (popStd ((computeGrouped w key rows true).map (fun t => t.scores.pele_raw)) = 0 →
            g.scores.pele_100 = some 50))
    ∧ (∀ (w : PeleWeights) (rows : List Row) (i : ℕ)
        (hlen : i < (rowLevel w rows true).length), rows.length = 1 →
        ((rowLevel w rows true).get ⟨i, hlen⟩).scores.pele_100 = some 50)
    ∧ (∀ (w : PeleWeights) (rows : List Row) (i : ℕ)
        (hlen : i < (rowLevel w rows true).length) (c : ℝ),
        (rowLevel w rows true).map (fun s => s.scores.pele_raw)
          = List.replicate rows.length c →
        ((rowLevel w rows true).get ⟨i, hlen⟩).scores.pele_100 = some 50) := by
  have main1 : ∀ (w : PeleWeights) (rows : List Row) (i : ℕ)
      (hlen : i < (rowLevel w rows true).length),
      (popStd ((rowLevel w rows true).map (fun s => s.scores.pele_raw)) ≠ 0 →
        ((rowLevel w rows true).get ⟨i, hlen⟩).scores.pele_100
          = some (50 + 10 * ((((rowLevel w rows true).get ⟨i, hlen⟩).scores.pele_raw
              - popMean ((rowLevel w rows true).map (fun s => s.scores.pele_raw)))
              / popStd ((rowLevel w rows true).map (fun s => s.scores.pele_raw)))))
      ∧ (popStd ((rowLevel w rows true).map (fun s => s.scores.pele_raw)) = 0 →
          ((rowLevel w rows true).get ⟨i, hlen⟩).scores.pele_100 = some 50) := by
    intro w rows i hlen
    have h := rowLevel_pele_100 w rows i hlen
    constructor
    · intro hs
      rw [h]
      unfold zscoreVal
      rw [if_neg hs]
    · intro hs
      rw [h]
      unfold zscoreVal
      rw [if_pos hs]
      norm_num
  refine ⟨main1, ?_, ?_, ?_⟩
  · intro w key rows g hg
    have h := computeGrouped_pele_100 w key rows hg
    constructor
    · intro hs
      rw [h]
      unfold zscoreVal
      rw [if_neg hs]
    · intro hs
      rw [h]
      unfold zscoreVal
      rw [if_pos hs]
      norm_num
  · intro w rows i hlen h1
    have hl : ((rowLevel w rows true).map (fun s => s.scores.pele_raw)).length = 1 := by
      rw [rowLevel_praws_length, h1]
    obtain ⟨x, hx⟩ := List.length_eq_one.mp hl
    refine (main1 w rows i hlen).2 ?_
    rw [hx]
    exact popStd_singleton x
  · intro w rows i hlen c hrep
    refine (main1 w rows i hlen).2 ?_
    rw [hrep]
    exact popStd_replicate _ c

/-- Witness for C5: a population of size one gets pele_100 = 50 exactly. -/
theorem c5_standardization_witness :
    ((rowLevel defaultWeights [blankRow] true).get
      ⟨0, by simp [rowLevel_length]⟩).scores.pele_100 = some 50 :=
  (c5_standardization (K := String)).2.2.1 defaultWeights [blankRow] 0
    (by simp [rowLevel_length]) rfl
